import Mathlib

/-!
Shallow embedding of the WebGPU triangle demo (`src/main.ts`, plus the
older variant of the same program kept in the repository) and proofs of
the specification's claims about it.

The program is a linear initialization procedure `init` that checks for
WebGPU support, acquires an adapter and a device, fetches shader source
text through a static registry, configures a canvas context, uploads a
vertex buffer, builds one render pipeline and issues a single draw call.

Browser/platform facilities (adapter availability, the DOM canvas
lookup, the network `fetch`) are modelled as an explicit environment;
the procedure itself is embedded as a pure function returning either a
thrown error or unit, together with the ordered trace of the external
calls it performed (console logs included).
-/

/-- Console log events (`console.error` / `console.warn`). -/
inductive LogEvent where
  | error (msg : String)
  | warn (msg : String)
  deriving DecidableEq, Repr

/-- One entry of the static shader registry `shadersMap`
(imported from `./shaders-map`; its concrete contents are not part of
the translated unit, so the registry is a parameter of the model). -/
structure ShaderMapEntry where
  id : String
  src : String
  deriving DecidableEq, Repr

/-- Outcome of the browser `fetch` primitive for a given URL:
a response with an `ok` flag and a text body, or a rejection. -/
inductive FetchResp where
  | resp (ok : Bool) (body : String)
  | reject
  deriving DecidableEq, Repr

/-- Result of `fetchShaderFile`: the returned value (`none` models
JavaScript `undefined`), the console logs emitted, and the URLs
actually passed to `fetch`, in order. -/
structure FetchShaderResult where
  value : Option String
  logs : List LogEvent
  fetches : List String
  deriving DecidableEq, Repr

/-- The lookup loop of `fetchShaderFile`: scan `shadersMap` in order and
take the `src` of the first entry whose `id` matches (the loop `break`s
at the first hit); `none` models `src` staying `undefined`. -/
def lookupSrc : List ShaderMapEntry → String → Option String
  | [], _ => none
  | e :: rest, id => if e.id = id then some e.src else lookupSrc rest id

/-- The console message of the registry-miss branch of `fetchShaderFile`. -/
def shaderNotFoundMsg (id : String) : String :=
  "Failed to find shader with \"" ++ id ++ "\"!"

/-- The console message of the `catch` branch of `fetchShaderFile`. -/
def shaderFetchErrorMsg (id : String) : String :=
  "Error while fetching shader file \"" ++ id ++ "\":"

/-- `fetchShaderFile(id)` from `src/main.ts`: look the id up in the
registry; if `src` is falsy (`undefined` because no entry matched, or
the empty string), log an error and return `undefined` without
fetching; otherwise `fetch(src)`, throw-and-catch on a non-ok response
(logging and returning `undefined`), and return the response text on
success. -/
def fetchShaderFile (shadersMap : List ShaderMapEntry)
    (fetchFn : String → FetchResp) (id : String) : FetchShaderResult :=
  match lookupSrc shadersMap id with
  | none =>
      { value := none, logs := [LogEvent.error (shaderNotFoundMsg id)], fetches := [] }
  | some s =>
      if s = "" then
        { value := none, logs := [LogEvent.error (shaderNotFoundMsg id)], fetches := [] }
      else
        match fetchFn s with
        | FetchResp.resp true body =>
            { value := some body, logs := [], fetches := [s] }
        | FetchResp.resp false _ =>
            { value := none, logs := [LogEvent.error (shaderFetchErrorMsg id)], fetches := [s] }
        | FetchResp.reject =>
            { value := none, logs := [LogEvent.error (shaderFetchErrorMsg id)], fetches := [s] }

/-- Runtime element type of a typed array handed to `createGPUBuffer`.
The four constructors named in the source's `instanceof` chain are
explicit; `other` stands for any other runtime type, carrying its
bytes-per-element so `byteLength` stays meaningful. -/
inductive ElemType where
  | f32
  | u32
  | u16
  | u8
  | other (bytesPerElem : Nat)
  deriving DecidableEq, Repr

/-- `BYTES_PER_ELEMENT` of the runtime element type. -/
def ElemType.bytes : ElemType → Nat
  | .f32 => 4
  | .u32 => 4
  | .u16 => 2
  | .u8 => 1
  | .other b => b

/-- Whether the element type is one the `instanceof` chain handles. -/
def ElemType.supported : ElemType → Bool
  | .other _ => false
  | _ => true

/-- A source typed array: runtime element type plus element values
(numbers, modelled exactly as rationals). -/
structure SrcArray where
  ty : ElemType
  elems : List Rat
  deriving DecidableEq, Repr

/-- `byteLength` of a typed array: element count times element width. -/
def SrcArray.byteLength (a : SrcArray) : Nat :=
  a.elems.length * a.ty.bytes

/-- The GPU buffer object as `createGPUBuffer` leaves it: its descriptor
fields and whether it is still in the mapped state. -/
structure CreatedBuffer where
  size : Nat
  usage : Nat
  mapped : Bool
  deriving DecidableEq, Repr

/-- The console message of the fallback branch of `createGPUBuffer`
(the source logs `"Unhandled buffer format "` followed by
`typeof gpuBuffer`, which is always `"object"`). -/
def unhandledBufferMsg : String :=
  "Unhandled buffer format object"

/-- Result of `createGPUBuffer`: the returned buffer, which typed-array
view the mapped range was written through, the element values copied by
`set`, the console logs, and how many times `unmap` was called. -/
structure BufResult where
  buffer : CreatedBuffer
  writtenView : ElemType
  written : List Rat
  logs : List LogEvent
  unmapCount : Nat
  deriving DecidableEq, Repr

/-- `createGPUBuffer(device, buffer, usage)` from `src/main.ts`: create
a buffer of size `buffer.byteLength` mapped at creation, pick a view of
the mapped range by `instanceof` (falling back to a `Float32Array` view
plus a logged error for any other runtime type), `set` the source
elements into it, and `unmap`. -/
def createGPUBuffer (usage : Nat) (buffer : SrcArray) : BufResult :=
  let gpuBuffer : CreatedBuffer :=
    { size := buffer.byteLength, usage := usage, mapped := true }
  let step : ElemType × List Rat × List LogEvent :=
    match buffer.ty with
    | ElemType.f32 => (ElemType.f32, buffer.elems, [])
    | ElemType.u32 => (ElemType.u32, buffer.elems, [])
    | ElemType.u16 => (ElemType.u16, buffer.elems, [])
    | ElemType.u8 => (ElemType.u8, buffer.elems, [])
    | ElemType.other _ =>
        (ElemType.f32, buffer.elems, [LogEvent.error unhandledBufferMsg])
  { buffer := { gpuBuffer with mapped := false },
    writtenView := step.1,
    written := step.2.1,
    logs := step.2.2,
    unmapCount := 1 }

/-- `GPUBufferUsage.VERTEX`. -/
def GPUBufferUsageVertex : Nat := 32

/-- `GPUTextureUsage.RENDER_ATTACHMENT`. -/
def GPUTextureUsageRenderAttachment : Nat := 16

/-- One vertex attribute of a `GPUVertexBufferLayout`. -/
structure VertexAttr where
  shaderLocation : Nat
  offset : Nat
  format : String
  deriving DecidableEq, Repr

/-- One `GPUVertexBufferLayout` entry. -/
structure VertexBufLayout where
  attributes : List VertexAttr
  arrayStride : Nat
  stepMode : String
  deriving DecidableEq, Repr

/-- The `layout` field of a `GPURenderPipelineDescriptor`: either the
string `"auto"` or an explicitly created `GPUPipelineLayout`, recorded
by the length of its `bindGroupLayouts` list. -/
inductive PipelineLayoutSpec where
  | auto
  | explicitLayout (bindGroupLayoutCount : Nat)
  deriving DecidableEq, Repr

/-- The `GPURenderPipelineDescriptor` fields the program sets.  The
shader modules of the two stages are recorded by the code the module
was created from. -/
structure PipelineDesc where
  vertexModule : Option String
  vertexEntryPoint : String
  vertexBuffers : List VertexBufLayout
  fragmentModule : Option String
  fragmentEntryPoint : String
  targetFormats : List String
  topology : String
  layout : PipelineLayoutSpec
  deriving DecidableEq, Repr

/-- The `vertexBufferLayout` constant built by `init` in `src/main.ts`
(two `float32x4` attributes at offsets 0 and 16, stride 32). -/
def vertexBufferLayout : List VertexBufLayout :=
  [ { attributes :=
        [ { shaderLocation := 0, offset := 0, format := "float32x4" },
          { shaderLocation := 1, offset := 16, format := "float32x4" } ],
      arrayStride := 32,
      stepMode := "vertex" } ]

/-- The `pipelineDescriptor` built by `init` in `src/main.ts`: both
stages from the demo shader module, the fixed vertex layout,
triangle-list topology, and the explicitly created pipeline layout
`device.createPipelineLayout(\x7b bindGroupLayouts: [] \x7d)`. -/
def mainPipelineDesc (code : Option String) (fmt : String) : PipelineDesc :=
  { vertexModule := code,
    vertexEntryPoint := "vertex_main",
    vertexBuffers := vertexBufferLayout,
    fragmentModule := code,
    fragmentEntryPoint := "fragment_main",
    targetFormats := [fmt],
    topology := "triangle-list",
    layout := PipelineLayoutSpec.explicitLayout 0 }

/-- The `pipelineDescriptor` built by the older variant of `init`
(`src/unnamed/part_000`): identical stages and vertex layout, but
`layout: "auto"`. -/
def part000PipelineDesc (code : Option String) (fmt : String) : PipelineDesc :=
  { vertexModule := code,
    vertexEntryPoint := "vertex_main",
    vertexBuffers := vertexBufferLayout,
    fragmentModule := code,
    fragmentEntryPoint := "fragment_main",
    targetFormats := [fmt],
    topology := "triangle-list",
    layout := PipelineLayoutSpec.auto }

/-- An RGBA color with rational components. -/
structure Color where
  r : Rat
  g : Rat
  b : Rat
  a : Rat
  deriving DecidableEq, Repr

/-- The `clearColor` constant of the render pass. -/
def demoClearColor : Color := { r := 0, g := 0.5, b := 1, a := 1 }

/-- The `vertices` constant of `init`: three vertices, each a 4-float
position followed by a 4-float color, in a `Float32Array`. -/
def demoVertices : SrcArray :=
  { ty := ElemType.f32,
    elems :=
      [ 0, 0.6, 0, 1,
        1, 0, 0, 1,
        -0.5, -0.6, 0, 1,
        0, 1, 0, 1,
        0.5, -0.6, 0, 1,
        0, 0, 1, 1 ] }

/-- The ordered external calls `init` can perform. -/
inductive Event where
  | requestAdapter
  | requestDevice
  | fetch (url : String)
  | consoleError (msg : String)
  | consoleWarn (msg : String)
  | createShaderModule (code : Option String)
  | getContext
  | configureContext (format : String) (usage : Nat) (alphaMode : String)
  | createBuffer (size : Nat) (usage : Nat) (mappedAtCreation : Bool)
  | bufferWrite (view : ElemType) (elems : List Rat)
  | unmap
  | createPipelineLayout (bindGroupLayoutCount : Nat)
  | createRenderPipeline (desc : PipelineDesc)
  | createCommandEncoder
  | beginRenderPass (clearValue : Color) (loadOp : String) (storeOp : String)
  | setViewport (width : Nat) (height : Nat)
  | setPipeline
  | setVertexBuffer (slot : Nat)
  | draw (vertexCount : Nat)
  | endPass
  | finishEncoder
  | submit (commandBufferCount : Nat)
  deriving DecidableEq, Repr

/-- A console log as a trace event. -/
def LogEvent.toEvent : LogEvent → Event
  | .error m => Event.consoleError m
  | .warn m => Event.consoleWarn m

/-- The trace of external calls `createGPUBuffer` performs, in source
order: `createBuffer` (mapped at creation), the write through the
chosen view of the mapped range, the fallback branch's log if any, and
`unmap`. -/
def createGPUBufferEvents (usage : Nat) (buffer : SrcArray) : List Event :=
  let r := createGPUBuffer usage buffer
  [Event.createBuffer r.buffer.size r.buffer.usage true,
   Event.bufferWrite r.writtenView r.written]
  ++ r.logs.map LogEvent.toEvent
  ++ [Event.unmap]

/-- Errors a JavaScript execution of `init` can end in: an explicitly
`throw`n `Error(msg)`, or a runtime `TypeError` (here: calling a method
on `null`). -/
inductive JsError where
  | thrown (msg : String)
  | typeError (msg : String)
  deriving DecidableEq, Repr

/-- The browser/platform environment `init` runs against: whether
`navigator.gpu` exists, whether `requestAdapter()` resolves to an
adapter, whether `document.querySelector('#webgpu-canvas')` finds the
canvas (and its dimensions), the shader registry, the `fetch`
primitive, and `navigator.gpu.getPreferredCanvasFormat()`. -/
structure Env where
  gpuSupported : Bool
  adapterAvailable : Bool
  canvasPresent : Bool
  canvasWidth : Nat
  canvasHeight : Nat
  shadersMap : List ShaderMapEntry
  fetchFn : String → FetchResp
  preferredFormat : String

/-- The message of the `TypeError` raised by `canvas.getContext` when
`canvas` is `null`. -/
def nullGetContextMsg : String :=
  "Cannot read properties of null (reading getContext)"

/-- `init()` from `src/main.ts`, as a pure function from the
environment to the outcome (normal return or error) paired with the
ordered trace of external calls: throw if WebGPU is unsupported; throw
if no adapter; request a device; fetch the `demo` shader and create a
shader module from whatever the fetch returned; query the canvas,
logging (but continuing) if it is missing — whereupon `getContext` on
`null` raises a `TypeError`; otherwise configure the context, upload
the vertices via `createGPUBuffer`, create the pipeline layout and
render pipeline, and encode and submit one render pass with a single
`draw(3)`. -/
def init (env : Env) : Except JsError Unit × List Event :=
  if !env.gpuSupported then
    (Except.error (JsError.thrown "WebGPU not supported."), [])
  else if !env.adapterAvailable then
    (Except.error (JsError.thrown "Couldn't request WebGPU adapter."),
     [Event.requestAdapter])
  else
    let fs := fetchShaderFile env.shadersMap env.fetchFn "demo"
    let tShader :=
      [Event.requestAdapter, Event.requestDevice]
      ++ fs.fetches.map Event.fetch
      ++ fs.logs.map LogEvent.toEvent
      ++ [Event.createShaderModule fs.value]
    if !env.canvasPresent then
      (Except.error (JsError.typeError nullGetContextMsg),
       tShader ++ [Event.consoleError "No canvas found to render to!"])
    else
      (Except.ok (),
       tShader
       ++ [Event.getContext,
           Event.configureContext env.preferredFormat
             GPUTextureUsageRenderAttachment "premultiplied"]
       ++ createGPUBufferEvents GPUBufferUsageVertex demoVertices
       ++ [Event.createPipelineLayout 0,
           Event.createRenderPipeline (mainPipelineDesc fs.value env.preferredFormat),
           Event.createCommandEncoder,
           Event.beginRenderPass demoClearColor "clear" "store",
           Event.setViewport env.canvasWidth env.canvasHeight,
           Event.setPipeline,
           Event.setVertexBuffer 0,
           Event.draw 3,
           Event.endPass,
           Event.finishEncoder,
           Event.submit 1])

/-- The vertex counts of the `draw` calls in a trace, in order. -/
def drawsOf (tr : List Event) : List Nat :=
  tr.filterMap fun e =>
    match e with
    | Event.draw n => some n
    | _ => none

/-- The command-buffer counts of the `queue.submit` calls in a trace. -/
def submitsOf (tr : List Event) : List Nat :=
  tr.filterMap fun e =>
    match e with
    | Event.submit n => some n
    | _ => none

/-- The descriptors of the `createRenderPipeline` calls in a trace. -/
def pipelineDescsOf (tr : List Event) : List PipelineDesc :=
  tr.filterMap fun e =>
    match e with
    | Event.createRenderPipeline d => some d
    | _ => none

/-- The `code` arguments of the `createShaderModule` calls in a trace. -/
def shaderModulesOf (tr : List Event) : List (Option String) :=
  tr.filterMap fun e =>
    match e with
    | Event.createShaderModule c => some c
    | _ => none

/-- The format/usage/alphaMode arguments of the `context.configure`
calls in a trace. -/
def configuresOf (tr : List Event) : List (String × Nat × String) :=
  tr.filterMap fun e =>
    match e with
    | Event.configureContext f u a => some (f, u, a)
    | _ => none

theorem filterMap_map_fetch {α : Type} (f : Event → Option α)
    (h : ∀ s, f (Event.fetch s) = none) (l : List String) :
    (l.map Event.fetch).filterMap f = [] := by
  induction l with
  | nil => rfl
  | cons x xs ih => simp [List.filterMap_cons, h, ih]

theorem filterMap_map_log {α : Type} (f : Event → Option α)
    (he : ∀ m, f (Event.consoleError m) = none)
    (hw : ∀ m, f (Event.consoleWarn m) = none) (l : List LogEvent) :
    (l.map LogEvent.toEvent).filterMap f = [] := by
  induction l with
  | nil => rfl
  | cons x xs ih => cases x <;> simp [LogEvent.toEvent, List.filterMap_cons, he, hw, ih]

theorem drawsOf_map_fetch (l : List String) : drawsOf (l.map Event.fetch) = [] :=
  filterMap_map_fetch _ (fun _ => rfl) l

theorem drawsOf_map_log (l : List LogEvent) : drawsOf (l.map LogEvent.toEvent) = [] :=
  filterMap_map_log _ (fun _ => rfl) (fun _ => rfl) l

theorem submitsOf_map_fetch (l : List String) : submitsOf (l.map Event.fetch) = [] :=
  filterMap_map_fetch _ (fun _ => rfl) l

theorem submitsOf_map_log (l : List LogEvent) : submitsOf (l.map LogEvent.toEvent) = [] :=
  filterMap_map_log _ (fun _ => rfl) (fun _ => rfl) l

theorem pipelineDescsOf_map_fetch (l : List String) :
    pipelineDescsOf (l.map Event.fetch) = [] :=
  filterMap_map_fetch _ (fun _ => rfl) l

theorem pipelineDescsOf_map_log (l : List LogEvent) :
    pipelineDescsOf (l.map LogEvent.toEvent) = [] :=
  filterMap_map_log _ (fun _ => rfl) (fun _ => rfl) l

theorem shaderModulesOf_map_fetch (l : List String) :
    shaderModulesOf (l.map Event.fetch) = [] :=
  filterMap_map_fetch _ (fun _ => rfl) l

theorem shaderModulesOf_map_log (l : List LogEvent) :
    shaderModulesOf (l.map LogEvent.toEvent) = [] :=
  filterMap_map_log _ (fun _ => rfl) (fun _ => rfl) l

theorem configuresOf_map_fetch (l : List String) :
    configuresOf (l.map Event.fetch) = [] :=
  filterMap_map_fetch _ (fun _ => rfl) l

theorem configuresOf_map_log (l : List LogEvent) :
    configuresOf (l.map LogEvent.toEvent) = [] :=
  filterMap_map_log _ (fun _ => rfl) (fun _ => rfl) l

theorem drawsOf_bufferEvents (u : Nat) (b : SrcArray) :
    drawsOf (createGPUBufferEvents u b) = [] := by
  simp [createGPUBufferEvents, drawsOf, List.filterMap_append, List.filterMap_cons]
  intro a _
  cases a <;> rfl

theorem submitsOf_bufferEvents (u : Nat) (b : SrcArray) :
    submitsOf (createGPUBufferEvents u b) = [] := by
  simp [createGPUBufferEvents, submitsOf, List.filterMap_append, List.filterMap_cons]
  intro a _
  cases a <;> rfl

theorem pipelineDescsOf_bufferEvents (u : Nat) (b : SrcArray) :
    pipelineDescsOf (createGPUBufferEvents u b) = [] := by
  simp [createGPUBufferEvents, pipelineDescsOf, List.filterMap_append, List.filterMap_cons]
  intro a _
  cases a <;> rfl

theorem shaderModulesOf_bufferEvents (u : Nat) (b : SrcArray) :
    shaderModulesOf (createGPUBufferEvents u b) = [] := by
  simp [createGPUBufferEvents, shaderModulesOf, List.filterMap_append, List.filterMap_cons]
  intro a _
  cases a <;> rfl

theorem drawsOf_append (a b : List Event) :
    drawsOf (a ++ b) = drawsOf a ++ drawsOf b := by
  simp [drawsOf]

theorem submitsOf_append (a b : List Event) :
    submitsOf (a ++ b) = submitsOf a ++ submitsOf b := by
  simp [submitsOf]

theorem pipelineDescsOf_append (a b : List Event) :
    pipelineDescsOf (a ++ b) = pipelineDescsOf a ++ pipelineDescsOf b := by
  simp [pipelineDescsOf]

theorem shaderModulesOf_append (a b : List Event) :
    shaderModulesOf (a ++ b) = shaderModulesOf a ++ shaderModulesOf b := by
  simp [shaderModulesOf]

theorem configuresOf_append (a b : List Event) :
    configuresOf (a ++ b) = configuresOf a ++ configuresOf b := by
  simp [configuresOf]

/-- The outcome and full trace of `init` when the canvas element is
missing but WebGPU and the adapter are available. -/
theorem init_canvas_missing (env : Env) (h1 : env.gpuSupported = true)
    (h2 : env.adapterAvailable = true) (h3 : env.canvasPresent = false) :
    init env =
      (Except.error (JsError.typeError nullGetContextMsg),
       [Event.requestAdapter, Event.requestDevice]
       ++ (fetchShaderFile env.shadersMap env.fetchFn "demo").fetches.map Event.fetch
       ++ (fetchShaderFile env.shadersMap env.fetchFn "demo").logs.map LogEvent.toEvent
       ++ [Event.createShaderModule (fetchShaderFile env.shadersMap env.fetchFn "demo").value,
           Event.consoleError "No canvas found to render to!"]) := by
  simp [init, h1, h2, h3]

/-- The outcome and full trace of `init` when every external dependency
is available. -/
theorem init_success (env : Env) (h1 : env.gpuSupported = true)
    (h2 : env.adapterAvailable = true) (h3 : env.canvasPresent = true) :
    init env =
      (Except.ok (),
       [Event.requestAdapter, Event.requestDevice]
       ++ (fetchShaderFile env.shadersMap env.fetchFn "demo").fetches.map Event.fetch
       ++ (fetchShaderFile env.shadersMap env.fetchFn "demo").logs.map LogEvent.toEvent
       ++ ([Event.createShaderModule (fetchShaderFile env.shadersMap env.fetchFn "demo").value,
            Event.getContext,
            Event.configureContext env.preferredFormat
              GPUTextureUsageRenderAttachment "premultiplied"]
          ++ createGPUBufferEvents GPUBufferUsageVertex demoVertices
          ++ [Event.createPipelineLayout 0,
              Event.createRenderPipeline
                (mainPipelineDesc (fetchShaderFile env.shadersMap env.fetchFn "demo").value
                  env.preferredFormat),
              Event.createCommandEncoder,
              Event.beginRenderPass demoClearColor "clear" "store",
              Event.setViewport env.canvasWidth env.canvasHeight,
              Event.setPipeline,
              Event.setVertexBuffer 0,
              Event.draw 3,
              Event.endPass,
              Event.finishEncoder,
              Event.submit 1])) := by
  simp [init, h1, h2, h3]

/-- A fully working environment: WebGPU supported, adapter available,
canvas present, a one-entry shader registry resolving `demo`, and a
fetch that always answers `ok` with a fixed body. -/
def demoEnv : Env :=
  { gpuSupported := true,
    adapterAvailable := true,
    canvasPresent := true,
    canvasWidth := 800,
    canvasHeight := 600,
    shadersMap := [{ id := "demo", src := "shaders/demo.wgsl" }],
    fetchFn := fun _ => FetchResp.resp true "wgsl source",
    preferredFormat := "bgra8unorm" }

/-- Claim C1: `init` fails fast by throwing whenever `navigator.gpu` is
absent — before any adapter or device work, so the trace is empty — and
likewise throws when `requestAdapter()` yields no adapter, with only
the adapter request in the trace (no device request follows). -/
theorem init_fails_fast (env : Env) :
    (env.gpuSupported = false →
      init env = (Except.error (JsError.thrown "WebGPU not supported."), [])) ∧
    (env.gpuSupported = true → env.adapterAvailable = false →
      init env = (Except.error (JsError.thrown "Couldn't request WebGPU adapter."),
        [Event.requestAdapter])) := by
  constructor
  · intro h
    simp [init, h]
  · intro h1 h2
    simp [init, h1, h2]

theorem init_fails_fast_witness :
    init { demoEnv with gpuSupported := false } =
      (Except.error (JsError.thrown "WebGPU not supported."), []) ∧
    init { demoEnv with adapterAvailable := false } =
      (Except.error (JsError.thrown "Couldn't request WebGPU adapter."),
        [Event.requestAdapter]) :=
  ⟨(init_fails_fast _).1 rfl, (init_fails_fast _).2 rfl rfl⟩

/-- Claim C2: when the canvas element is missing, `init` logs an error
and continues rather than throwing, then calls `.getContext` on the
`null` canvas — so the run ends in an uncontrolled `TypeError` right
after the log, and no context configuration ever happens. -/
theorem init_missing_canvas (env : Env)
    (h1 : env.gpuSupported = true) (h2 : env.adapterAvailable = true)
    (h3 : env.canvasPresent = false) :
    init env =
      (Except.error (JsError.typeError nullGetContextMsg),
       [Event.requestAdapter, Event.requestDevice]
       ++ (fetchShaderFile env.shadersMap env.fetchFn "demo").fetches.map Event.fetch
       ++ (fetchShaderFile env.shadersMap env.fetchFn "demo").logs.map LogEvent.toEvent
       ++ [Event.createShaderModule (fetchShaderFile env.shadersMap env.fetchFn "demo").value,
           Event.consoleError "No canvas found to render to!"]) ∧
    Event.consoleError "No canvas found to render to!" ∈ (init env).2 ∧
    configuresOf (init env).2 = [] := by
  have htr : init env =
      (Except.error (JsError.typeError nullGetContextMsg),
       [Event.requestAdapter, Event.requestDevice]
       ++ (fetchShaderFile env.shadersMap env.fetchFn "demo").fetches.map Event.fetch
       ++ (fetchShaderFile env.shadersMap env.fetchFn "demo").logs.map LogEvent.toEvent
       ++ [Event.createShaderModule (fetchShaderFile env.shadersMap env.fetchFn "demo").value,
           Event.consoleError "No canvas found to render to!"]) := by
    simp [init, h1, h2, h3]
  refine ⟨htr, ?_, ?_⟩
  · rw [htr]
    simp
  · rw [htr]
    simp [configuresOf, List.filterMap_append, List.filterMap_cons,
      configuresOf_map_fetch, configuresOf_map_log]
    intro a _
    cases a <;> rfl

theorem init_missing_canvas_witness :
    init { demoEnv with canvasPresent := false } =
      (Except.error (JsError.typeError nullGetContextMsg),
       [Event.requestAdapter, Event.requestDevice, Event.fetch "shaders/demo.wgsl",
        Event.createShaderModule (some "wgsl source"),
        Event.consoleError "No canvas found to render to!"]) ∧
    configuresOf (init { demoEnv with canvasPresent := false }).2 = [] := by
  obtain ⟨h, _, hc⟩ := init_missing_canvas { demoEnv with canvasPresent := false } rfl rfl rfl
  refine ⟨?_, hc⟩
  rw [h]
  rfl

/-- Claim C3: for every shader id missing from the registry,
`fetchShaderFile` logs an error and returns `undefined` without
performing any fetch; and `init` creates its shader module from exactly
the value `fetchShaderFile` returned — so an `undefined` result is
passed straight to `createShaderModule`. -/
theorem fetchShaderFile_unknown_id (shadersMap : List ShaderMapEntry)
    (fetchFn : String → FetchResp) (id : String)
    (h : lookupSrc shadersMap id = none) :
    fetchShaderFile shadersMap fetchFn id =
      { value := none, logs := [LogEvent.error (shaderNotFoundMsg id)], fetches := [] } ∧
    ∀ env : Env, env.gpuSupported = true → env.adapterAvailable = true →
      shaderModulesOf (init env).2 =
        [(fetchShaderFile env.shadersMap env.fetchFn "demo").value] := by
  constructor
  · simp [fetchShaderFile, h]
  · intro env h1 h2
    cases hc : env.canvasPresent
    · have htr := congrArg Prod.snd (init_canvas_missing env h1 h2 hc)
      rw [htr]
      simp only [shaderModulesOf_append, shaderModulesOf_map_fetch, shaderModulesOf_map_log]
      rfl
    · have htr := congrArg Prod.snd (init_success env h1 h2 hc)
      rw [htr]
      simp only [shaderModulesOf_append, shaderModulesOf_map_fetch, shaderModulesOf_map_log]
      rfl

theorem fetchShaderFile_unknown_id_witness :
    fetchShaderFile [] (fun _ => FetchResp.resp true "wgsl source") "demo" =
      { value := none, logs := [LogEvent.error (shaderNotFoundMsg "demo")], fetches := [] } ∧
    shaderModulesOf (init { demoEnv with shadersMap := [] }).2 = [none] := by
  obtain ⟨a, b⟩ :=
    fetchShaderFile_unknown_id [] (fun _ => FetchResp.resp true "wgsl source") "demo" rfl
  refine ⟨a, ?_⟩
  have hb := b { demoEnv with shadersMap := [] } rfl rfl
  rw [hb]
  rfl

/-- Claim C4: for every shader id present in the registry (with a
non-empty source path, so that a fetch actually happens) whose fetch
completes with an `ok` response, `fetchShaderFile` returns exactly the
text body of the response, emits no log, and performs exactly that one
fetch. -/
theorem fetchShaderFile_known_id (shadersMap : List ShaderMapEntry)
    (fetchFn : String → FetchResp) (id s body : String)
    (h1 : lookupSrc shadersMap id = some s) (h2 : s ≠ "")
    (h3 : fetchFn s = FetchResp.resp true body) :
    fetchShaderFile shadersMap fetchFn id =
      { value := some body, logs := [], fetches := [s] } := by
  simp [fetchShaderFile, h1, h2, h3]

theorem fetchShaderFile_known_id_witness :
    fetchShaderFile [{ id := "demo", src := "shaders/demo.wgsl" }]
      (fun _ => FetchResp.resp true "wgsl source") "demo" =
      { value := some "wgsl source", logs := [], fetches := ["shaders/demo.wgsl"] } :=
  fetchShaderFile_known_id _ _ "demo" "shaders/demo.wgsl" "wgsl source"
    (by simp [lookupSrc]) (by decide) rfl

/-- Claim C5: `createGPUBuffer` allocates the buffer with size exactly
the source array's `byteLength`; for a `Float32Array` of length `n` the
size is `n * 4`, the mapped range is written through a `Float32Array`
view with exactly the source elements, and the buffer is unmapped
before being returned. -/
theorem createGPUBuffer_size_exact (usage : Nat) (src : SrcArray) :
    (createGPUBuffer usage src).buffer.size = src.byteLength ∧
    (createGPUBuffer usage src).buffer.usage = usage ∧
    (createGPUBuffer usage src).buffer.mapped = false ∧
    (src.ty = ElemType.f32 →
      (createGPUBuffer usage src).buffer.size = src.elems.length * 4 ∧
      (createGPUBuffer usage src).writtenView = ElemType.f32 ∧
      (createGPUBuffer usage src).written = src.elems) := by
  obtain ⟨ty, elems⟩ := src
  refine ⟨rfl, rfl, rfl, fun h => ?_⟩
  cases h
  exact ⟨rfl, rfl, rfl⟩

theorem createGPUBuffer_size_exact_witness :
    (createGPUBuffer 32 { ty := ElemType.f32, elems := [1, 2] }).buffer.size = 8 ∧
    (createGPUBuffer 32 { ty := ElemType.f32, elems := [1, 2] }).written = [1, 2] ∧
    (createGPUBuffer 32 { ty := ElemType.f32, elems := [1, 2] }).buffer.mapped = false := by
  obtain ⟨h1, h2, h3, h4⟩ :=
    createGPUBuffer_size_exact 32 { ty := ElemType.f32, elems := [1, 2] }
  obtain ⟨g1, g2, g3⟩ := h4 rfl
  exact ⟨by simpa using g1, g3, h3⟩

/-- Claim C6: for every source array whose runtime element type is none
of the four supported typed-array types, `createGPUBuffer` falls back
to writing the data through a `Float32Array` view of the mapped range
and logs an error, still returning a normally constructed, unmapped
buffer rather than refusing the upload. -/
theorem createGPUBuffer_fallback (usage : Nat) (src : SrcArray)
    (h : src.ty.supported = false) :
    (createGPUBuffer usage src).writtenView = ElemType.f32 ∧
    (createGPUBuffer usage src).written = src.elems ∧
    (createGPUBuffer usage src).logs = [LogEvent.error unhandledBufferMsg] ∧
    (createGPUBuffer usage src).buffer.size = src.byteLength ∧
    (createGPUBuffer usage src).buffer.mapped = false := by
  obtain ⟨ty, elems⟩ := src
  cases ty <;> simp_all [ElemType.supported, createGPUBuffer]

theorem createGPUBuffer_fallback_witness :
    (createGPUBuffer 32 { ty := ElemType.other 8, elems := [3] }).writtenView = ElemType.f32 ∧
    (createGPUBuffer 32 { ty := ElemType.other 8, elems := [3] }).logs =
      [LogEvent.error unhandledBufferMsg] := by
  obtain ⟨h1, _, h3, _, _⟩ :=
    createGPUBuffer_fallback 32 { ty := ElemType.other 8, elems := [3] } rfl
  exact ⟨h1, h3⟩

/-- Claim C10: `createGPUBuffer` calls `unmap` exactly once on every
branch — the unsupported-type fallback included — so the buffer it
returns is never in the mapped state. -/
theorem createGPUBuffer_always_unmaps (usage : Nat) (src : SrcArray) :
    (createGPUBuffer usage src).unmapCount = 1 ∧
    (createGPUBuffer usage src).buffer.mapped = false :=
  ⟨rfl, rfl⟩

/-- Claim C7: the render pipeline descriptor built by `init` — there is
exactly one — always carries exactly one vertex buffer layout with
exactly two `float32x4` attributes at shader locations 0 and 1, byte
offsets 0 and 16, `arrayStride` 32, and triangle-list topology. -/
theorem init_pipeline_vertex_layout (env : Env)
    (h1 : env.gpuSupported = true) (h2 : env.adapterAvailable = true)
    (h3 : env.canvasPresent = true) :
    pipelineDescsOf (init env).2 =
      [mainPipelineDesc (fetchShaderFile env.shadersMap env.fetchFn "demo").value
        env.preferredFormat] ∧
    ∀ d ∈ pipelineDescsOf (init env).2,
      d.vertexBuffers =
        [ { attributes :=
              [ { shaderLocation := 0, offset := 0, format := "float32x4" },
                { shaderLocation := 1, offset := 16, format := "float32x4" } ],
            arrayStride := 32,
            stepMode := "vertex" } ] ∧
      d.topology = "triangle-list" := by
  have htr := congrArg Prod.snd (init_success env h1 h2 h3)
  have he : pipelineDescsOf (init env).2 =
      [mainPipelineDesc (fetchShaderFile env.shadersMap env.fetchFn "demo").value
        env.preferredFormat] := by
    rw [htr]
    simp only [pipelineDescsOf_append, pipelineDescsOf_map_fetch, pipelineDescsOf_map_log]
    rfl
  refine ⟨he, ?_⟩
  rw [he]
  intro d hd
  rw [List.mem_singleton] at hd
  subst hd
  exact ⟨rfl, rfl⟩

theorem init_pipeline_vertex_layout_witness :
    pipelineDescsOf (init demoEnv).2 = [mainPipelineDesc (some "wgsl source") "bgra8unorm"] ∧
    (mainPipelineDesc (some "wgsl source") "bgra8unorm").topology = "triangle-list" := by
  obtain ⟨he, hall⟩ := init_pipeline_vertex_layout demoEnv rfl rfl rfl
  refine ⟨by rw [he]; rfl, ?_⟩
  exact (hall (mainPipelineDesc (some "wgsl source") "bgra8unorm")
    (by rw [he]; exact List.mem_singleton.mpr (by rfl))).2

/-- Claim C9: one invocation of `init` (with every external dependency
available) issues exactly one draw call, for exactly 3 vertices, and
exactly one queue submission carrying exactly one command buffer. -/
theorem init_single_draw_single_submit (env : Env)
    (h1 : env.gpuSupported = true) (h2 : env.adapterAvailable = true)
    (h3 : env.canvasPresent = true) :
    drawsOf (init env).2 = [3] ∧ submitsOf (init env).2 = [1] := by
  have htr := congrArg Prod.snd (init_success env h1 h2 h3)
  constructor
  · rw [htr]
    simp only [drawsOf_append, drawsOf_map_fetch, drawsOf_map_log]
    rfl
  · rw [htr]
    simp only [submitsOf_append, submitsOf_map_fetch, submitsOf_map_log]
    rfl

theorem init_single_draw_single_submit_witness :
    drawsOf (init demoEnv).2 = [3] ∧ submitsOf (init demoEnv).2 = [1] :=
  init_single_draw_single_submit demoEnv rfl rfl rfl

/-- Claim C8, counterexample: on a fully working environment `init`
creates exactly one render pipeline, and its descriptor's `layout` is
not `"auto"` — `src/main.ts` passes the explicitly created pipeline
layout instead. -/
theorem init_pipeline_layout_not_auto :
    pipelineDescsOf (init demoEnv).2 = [mainPipelineDesc (some "wgsl source") "bgra8unorm"] ∧
    (mainPipelineDesc (some "wgsl source") "bgra8unorm").layout ≠ PipelineLayoutSpec.auto := by
  exact ⟨rfl, by decide⟩

/-- Claim C8, amended: the single render pipeline created by `init` in
`src/main.ts` uses an explicitly supplied pipeline layout built from an
empty list of bind-group layouts (not an auto-derived one); only the
older variant of `init` kept in `src/unnamed/part_000` sets
`layout: "auto"`. -/
theorem init_pipeline_layout_explicit_empty (code : Option String) (fmt : String)
    (env : Env) (h1 : env.gpuSupported = true) (h2 : env.adapterAvailable = true)
    (h3 : env.canvasPresent = true) :
    (mainPipelineDesc code fmt).layout = PipelineLayoutSpec.explicitLayout 0 ∧
    (part000PipelineDesc code fmt).layout = PipelineLayoutSpec.auto ∧
    ∀ d ∈ pipelineDescsOf (init env).2,
      d.layout = PipelineLayoutSpec.explicitLayout 0 := by
  refine ⟨rfl, rfl, ?_⟩
  have htr := congrArg Prod.snd (init_success env h1 h2 h3)
  have he : pipelineDescsOf (init env).2 =
      [mainPipelineDesc (fetchShaderFile env.shadersMap env.fetchFn "demo").value
        env.preferredFormat] := by
    rw [htr]
    simp only [pipelineDescsOf_append, pipelineDescsOf_map_fetch, pipelineDescsOf_map_log]
    rfl
  rw [he]
  intro d hd
  rw [List.mem_singleton] at hd
  subst hd
  rfl

theorem init_pipeline_layout_explicit_empty_witness :
    (mainPipelineDesc (some "wgsl source") "bgra8unorm").layout =
      PipelineLayoutSpec.explicitLayout 0 ∧
    (part000PipelineDesc (some "wgsl source") "bgra8unorm").layout =
      PipelineLayoutSpec.auto := by
  obtain ⟨a, b, _⟩ :=
    init_pipeline_layout_explicit_empty (some "wgsl source") "bgra8unorm" demoEnv rfl rfl rfl
  exact ⟨a, b⟩
